/-
Verification of the dataplot repository's expression formatter
(`src/dataset.py`, class `PlotDataSet` / `PlotDataSets`) and broadcast
proxy (`src/utils/multis.py`, class `MultiObject` and the `cleaner`
reducer), as a shallow embedding in Lean 4.

Modelling conventions:
* Python `str` is Lean `String` (a list of characters); `str.format`
  with the single positional placeholder is modelled by scanning for
  the three-character placeholder sequence, as CPython does.
* Numeric arrays (`numpy` 1-d arrays) are `List Rat`; elementwise
  arithmetic is exact rational arithmetic.  External black-box numeric
  routines that have no exact rational meaning (`np.log`, `np.exp`,
  `np.nanstd`, `pandas` rolling mean) are fields of a `NumpyModel`
  record over which every theorem quantifies; no theorem depends on
  numeric values produced by them.
* Python `int` scalars are `Int`, rendered in decimal by `intStr`
  (the model of `str(int)`); `float` scalars are outside the model.
* Exceptions are modelled with `Except String`; mutation is modelled
  by explicit state passing (methods that in Python mutate `self`
  return the updated record).
-/
import Mathlib

namespace Dataplot

/-! ### Characters and Python string formatting -/

/-- The opening curly-brace character of a format placeholder. -/
def lbrace : Char := '\x7b'

/-- The closing curly-brace character of a format placeholder. -/
def rbrace : Char := '\x7d'

/-- Scanner for Python `str.format` restricted to the placeholder `"{0}"`:
every occurrence of the three-character placeholder is replaced by
`label`, all other characters are copied.  This is the behaviour of
CPython `template.format(label)` on the templates built by `PlotDataSet`. -/
def substAux (label : List Char) : List Char → List Char
  | [] => []
  | [c] => [c]
  | [c, d] => [c, d]
  | c :: d :: e :: rest =>
    if c = lbrace ∧ d = '0' ∧ e = rbrace then label ++ substAux label rest
    else c :: substAux label (d :: e :: rest)

/-- Python `template.format(label)` for the templates used by the formatter. -/
def pyFormat (template label : String) : String :=
  String.mk (substAux label.data template.data)

/-- `PlotDataSet.__remove_brackets`: strip the first and last character
(`string[1:-1]`) whenever the string starts with `"("` and ends with
`")"`; the two stripped characters are not checked against each other. -/
def removeBrackets (s : String) : String :=
  if s.data.head? = some '(' ∧ s.data.getLast? = some ')' then
    String.mk s.data.tail.dropLast
  else s

/-- Model of Python `str(k)` for an `int` `k`: decimal digits with a
leading minus sign for negative numbers. -/
def intStr (k : Int) : String :=
  if k < 0 then String.mk ('-' :: Nat.toDigits 10 k.natAbs)
  else String.mk (Nat.toDigits 10 k.toNat)

/-! ### Arrays and external numeric routines -/

/-- A 1-dimensional numpy array, modelled as an exact rational vector. -/
abbrev NDArray := List Rat

/-- The binary numpy ufuncs used by `PlotDataSet`'s arithmetic methods. -/
inductive OpSign where
  | add
  | sub
  | mul
  | div
  | pow
  deriving DecidableEq

/-- Pointwise rational meaning of each ufunc.  Division by zero is `0`
(the Lean rational convention; numpy would produce `inf`/`nan`) and a
power with a non-integral exponent is `0` (irrational in general); no
theorem below depends on either value. -/
def opFun : OpSign → Rat → Rat → Rat
  | .add => fun a b => a + b
  | .sub => fun a b => a - b
  | .mul => fun a b => a * b
  | .div => fun a b => a / b
  | .pow => fun a b => if b.den = 1 then a ^ b.num else 0

/-- Elementwise ufunc application, array-array (numpy same-length zip). -/
def applyArrArr (op : OpSign) (xs ys : NDArray) : NDArray :=
  List.zipWith (opFun op) xs ys

/-- Elementwise ufunc application, array-scalar broadcast. -/
def applyArrScalar (op : OpSign) (xs : NDArray) (c : Rat) : NDArray :=
  xs.map (fun x => opFun op x c)

/-- Elementwise ufunc application, scalar-array broadcast. -/
def applyScalarArr (op : OpSign) (c : Rat) (xs : NDArray) : NDArray :=
  xs.map (fun x => opFun op c x)

/-- `np.nanmean` on a rational array (no `nan` exists in the model). -/
def nanmean (xs : NDArray) : Rat := xs.sum / (xs.length : Rat)

/-- `np.cumsum`: running partial sums. -/
def npCumsum (xs : NDArray) : NDArray := (xs.scanl (· + ·) 0).drop 1

/-- The external black-box numeric routines with no exact rational
meaning.  Every theorem quantifies over an arbitrary model, so nothing
proved below depends on their behaviour. -/
structure NumpyModel where
  log : NDArray → NDArray
  exp : NDArray → NDArray
  nanstd : NDArray → Rat
  rollingMean : Int → NDArray → NDArray

/-! ### The dataset wrapper `PlotDataSet` -/

/-- The state of a `PlotDataSet` instance (`src/dataset.py`).  The
`settings : PlotSettings` attribute is not modelled: it is a record of
optional display options never read by the formatting or arithmetic
code under verification. -/
structure PlotDataSet where
  data : NDArray
  label : String
  fmt_ : String
  original_data : NDArray
  last_op_prior : Nat
  deriving DecidableEq

/-- The factory path `dataplot.data(x, label)` for a single array:
`PlotDataSet(np.array(x), label)` followed by `__attrs_post_init__`
(label defaults to `"x1"`, `original_data` is the input, the template
is the bare placeholder, priority 0). -/
def mkPlotDataSet (data : NDArray) (label : Option String) : PlotDataSet :=
  { data := data
    label := label.getD "x1"
    fmt_ := "{0}"
    original_data := data
    last_op_prior := 0 }

namespace PlotDataSet

/-- `PlotDataSet.__create`: `customize` constructs a fresh instance of
the same class from `self.original_data` and `self.label` (whose
post-init sets `original_data` to that array) and copies the settings
(not modelled); the caller then overwrites `fmt_`, `data` and
`last_op_prior`. -/
def create (self : PlotDataSet) (fmt : String) (data : NDArray)
    (priority : Nat) : PlotDataSet :=
  { data := data
    label := self.label
    fmt_ := fmt
    original_data := self.original_data
    last_op_prior := priority }

/-- `PlotDataSet.__auto_remove_brackets`, with the `self.last_op_prior`
field passed explicitly. -/
def autoRemoveBrackets (last_op_prior : Nat) (string : String)
    (priority : Nat) : String :=
  if priority = 0 ∨ last_op_prior ≤ priority then removeBrackets string
  else string

/-- The `PlotDataSet.fmt` property: the template with one pair of
enclosing brackets stripped. -/
def fmt (self : PlotDataSet) : String := removeBrackets self.fmt_

/-- `PlotDataSet.formatted_label(priority)`: substitute the live label
into the template, after relaxing the threshold by one notch at the
exact boundary priority of `/` (19) or binary `-` (29). -/
def formatted_label (self : PlotDataSet) (priority : Nat) : String :=
  let priority :=
    if priority = self.last_op_prior ∧ (priority = 19 ∨ priority = 29) then
      priority - 1
    else priority
  autoRemoveBrackets self.last_op_prior (pyFormat self.fmt_ self.label)
    priority

end PlotDataSet

/-- An operand of a binary arithmetic method: a Python `int`, another
`PlotDataSet`, or any other object (carrying the strings produced by
`str(obj)` and `type(obj)`, the only two things the source ever does
with such an operand). -/
inductive Operand where
  | int (n : Int)
  | ds (d : PlotDataSet)
  | obj (str_ : String) (type_ : String)

namespace PlotDataSet

/-- Python `f"{other}"` on an operand. -/
def operandStr : Operand → String
  | .int n => intStr n
  | .ds d => "PlotDataSet\n- " ++ d.formatted_label 0
  | .obj s _ => s

/-- The data produced by `func(other, self.data)` in the reverse branch.
For a foreign object the result is whatever the external ufunc does;
the model returns `[]` and no theorem depends on this value. -/
def reverseData (op : OpSign) (other : Operand) (xs : NDArray) : NDArray :=
  match other with
  | .int n => applyScalarArr op (n : Rat) xs
  | .ds d => applyArrArr op d.data xs
  | .obj _ _ => []

/-- `PlotDataSet.__binary_operation`.  The reverse branch performs no
operand validation; the forward branch raises `ValueError` for an
operand that is neither a number nor a `PlotDataSet`. -/
def binaryOperation (self : PlotDataSet) (other : Operand) (sign : String)
    (op : OpSign) (reverse : Bool) (priority : Nat) :
    Except String PlotDataSet :=
  if reverse then
    let this_fmt := autoRemoveBrackets self.last_op_prior self.fmt_ priority
    let new_fmt := "(" ++ operandStr other ++ sign ++ this_fmt ++ ")"
    .ok (self.create new_fmt (reverseData op other self.data) priority)
  else
    let this_fmt :=
      autoRemoveBrackets self.last_op_prior self.fmt_ (priority + 1)
    match other with
    | .int n =>
      .ok (self.create ("(" ++ this_fmt ++ sign ++ intStr n ++ ")")
        (applyArrScalar op self.data (n : Rat)) priority)
    | .ds other =>
      let other_label := other.formatted_label priority
      .ok (self.create ("(" ++ this_fmt ++ sign ++ other_label ++ ")")
        (applyArrArr op self.data other.data) priority)
    | .obj _ ty =>
      .error ("binary operation between PlotDataSet and " ++ ty ++
        " is not supoorted, try float, int, or PlotDataSet")

/-- `PlotDataSet.__neg__`. -/
def neg (self : PlotDataSet) : PlotDataSet :=
  let new_fmt :=
    "(-" ++ autoRemoveBrackets self.last_op_prior self.fmt_ 28 ++ ")"
  self.create new_fmt (self.data.map (fun x => -x)) 40

/-- `PlotDataSet.__add__`. -/
def add (self : PlotDataSet) (other : Operand) : Except String PlotDataSet :=
  self.binaryOperation other "+" .add false 30

/-- `PlotDataSet.__radd__`. -/
def radd (self : PlotDataSet) (other : Operand) : Except String PlotDataSet :=
  self.binaryOperation other "+" .add true 30

/-- `PlotDataSet.__sub__`. -/
def sub (self : PlotDataSet) (other : Operand) : Except String PlotDataSet :=
  self.binaryOperation other "-" .sub false 29

/-- `PlotDataSet.__rsub__`. -/
def rsub (self : PlotDataSet) (other : Operand) : Except String PlotDataSet :=
  self.binaryOperation other "-" .sub true 29

/-- `PlotDataSet.__mul__`. -/
def mul (self : PlotDataSet) (other : Operand) : Except String PlotDataSet :=
  self.binaryOperation other "*" .mul false 20

/-- `PlotDataSet.__rmul__`. -/
def rmul (self : PlotDataSet) (other : Operand) : Except String PlotDataSet :=
  self.binaryOperation other "*" .mul true 20

/-- `PlotDataSet.__truediv__`. -/
def div (self : PlotDataSet) (other : Operand) : Except String PlotDataSet :=
  self.binaryOperation other "/" .div false 19

/-- `PlotDataSet.__rtruediv__`. -/
def rdiv (self : PlotDataSet) (other : Operand) : Except String PlotDataSet :=
  self.binaryOperation other "/" .div true 19

/-- `PlotDataSet.__pow__` (default priority 10). -/
def pow (self : PlotDataSet) (other : Operand) : Except String PlotDataSet :=
  self.binaryOperation other "**" .pow false 10

/-- `PlotDataSet.__rpow__` (default priority 10). -/
def rpow (self : PlotDataSet) (other : Operand) : Except String PlotDataSet :=
  self.binaryOperation other "**" .pow true 10

/-- `PlotDataSet.log`. -/
def log (M : NumpyModel) (self : PlotDataSet) : PlotDataSet :=
  self.create ("log(" ++ self.fmt ++ ")") (M.log self.data) 0

/-- `PlotDataSet.exp`. -/
def exp (M : NumpyModel) (self : PlotDataSet) : PlotDataSet :=
  self.create ("exp(" ++ self.fmt ++ ")") (M.exp self.data) 0

/-- `PlotDataSet.rolling(n)`. -/
def rolling (M : NumpyModel) (self : PlotDataSet) (n : Int) : PlotDataSet :=
  self.create ("rolling(" ++ self.fmt ++ ", " ++ intStr n ++ ")")
    (M.rollingMean n self.data) 0

/-- `PlotDataSet.demean`: the template is an unparenthesized
subtraction while `__create` is called with its default priority 0. -/
def demean (self : PlotDataSet) : PlotDataSet :=
  self.create (self.fmt ++ "-mean(" ++ self.fmt ++ ")")
    (self.data.map (fun x => x - nanmean self.data)) 0

/-- `PlotDataSet.zscore` (default priority 0). -/
def zscore (M : NumpyModel) (self : PlotDataSet) : PlotDataSet :=
  self.create
    ("(" ++ self.fmt ++ "-mean(" ++ self.fmt ++ "))/std(" ++ self.fmt ++ ")")
    (self.data.map (fun x => (x - nanmean self.data) / M.nanstd self.data)) 0

/-- `PlotDataSet.cumsum` (default priority 0). -/
def cumsum (self : PlotDataSet) : PlotDataSet :=
  self.create ("csum(" ++ self.fmt ++ ")") (npCumsum self.data) 0

/-- `PlotDataSet.opclear`: in-place reset of `fmt_` and `data` (the
returned record is the post-call state of `self`). -/
def opclear (self : PlotDataSet) : PlotDataSet :=
  { self with fmt_ := "{0}", data := self.original_data }

/-- `PlotDataSet.opclear_records_only`: in-place reset of `fmt_`,
keeping the current data as the new baseline. -/
def opclear_records_only (self : PlotDataSet) : PlotDataSet :=
  { self with fmt_ := "{0}", original_data := self.data }

/-- `PlotDataSet.set_label(label, **kwargs)` (the returned record is
the post-call state of `self`). -/
def set_label (self : PlotDataSet) (label : Option String)
    (kwargs : List (String × String)) : PlotDataSet :=
  match label with
  | some s => { self with label := s }
  | none =>
    match kwargs.lookup self.label with
    | some s => { self with label := s }
    | none => self

end PlotDataSet

/-! ### The broadcast proxy `MultiObject` (`src/utils/multis.py`) -/

/-- The state of a `MultiObject`: the item list and the two policy
knobs fixed at construction.  Items are arbitrary Python objects,
modelled by a type parameter `α`; when the proxy is invoked each item
is applied through an explicit application function (see
`MultiObject.call`), which models Python's `obj(*args, **kwargs)`. -/
structure MultiObject (α : Type) where
  items : List α
  call_reducer : Option (List α → α) := none
  call_reflex : Option String := none

/-- An argument of a proxy invocation: either a plain object or itself
a `MultiObject` (which the source detects with `isinstance`). -/
inductive MArg (α : Type) where
  | plain (a : α)
  | mobj (m : MultiObject α)

/-- The per-item cleaning of one positional argument: a proxy argument
is replaced by its `i`-th element (`none` models the `IndexError` when
the proxy is too short); a plain argument is passed through. -/
def cleanArg (i : Nat) : MArg α → Option α
  | .plain a => some a
  | .mobj m => m.items.get? i

/-- The per-item cleaning of one keyword argument. -/
def cleanKw (i : Nat) (kv : String × MArg α) : Option (String × α) :=
  (cleanArg i kv.2).map (fun v => (kv.1, v))

/-- Python dict assignment `d[k] = v` on an association list whose keys
are unique: overwrite the existing binding in place or append. -/
def dictSet (k : String) (v : α) : List (String × α) → List (String × α)
  | [] => [(k, v)]
  | (k2, v2) :: rest =>
    if k2 = k then (k, v) :: rest else (k2, v2) :: dictSet k v rest

/-- The loop of `MultiObject.__call__`: `i` is the loop index, `prev`
the result of the previous iteration (`none` on the first).  The
reflex keyword is injected only when the reflex key is truthy (a
non-`None`, nonempty string) and `i > 0`, as in the source. -/
def callAux (app : α → List α → List (String × α) → α)
    (reflex : Option String) (args : List (MArg α))
    (kwargs : List (String × MArg α)) :
    Nat → Option α → List α → Option (List α)
  | _, _, [] => some []
  | i, prev, obj :: rest =>
    match args.mapM (cleanArg i), kwargs.mapM (cleanKw i) with
    | some cargs, some ckw0 =>
      let ckw :=
        match reflex, prev with
        | some k, some r => if k ≠ "" ∧ 0 < i then dictSet k r ckw0 else ckw0
        | _, _ => ckw0
      let r := app obj cargs ckw
      match callAux app reflex args kwargs (i + 1) (some r) rest with
      | some rs => some (r :: rs)
      | none => none
    | _, _ => none

/-- The value returned by `MultiObject.__call__`: the reducer's output
when a reducer is configured, otherwise a fresh proxy. -/
inductive CallResult (α : Type) where
  | reduced (value : α)
  | proxy (m : MultiObject α)

/-- `MultiObject.__call__`: clean the arguments per item, run the items
in list order threading the reflex result, then reduce or re-wrap.
The fresh proxy keeps the reflex key and drops the reducer
(`self.__class__(returns, call_reflex=self.__call_reflex)`). -/
def MultiObject.call (app : α → List α → List (String × α) → α)
    (self : MultiObject α) (args : List (MArg α))
    (kwargs : List (String × MArg α)) : Option (CallResult α) :=
  (callAux app self.call_reflex args kwargs 0 none self.items).map
    fun returns =>
      match self.call_reducer with
      | some reducer => .reduced (reducer returns)
      | none =>
        .proxy { items := returns, call_reducer := none,
                 call_reflex := self.call_reflex }

/-! ### The `cleaner` reducer -/

/-- The closed value universe on which `cleaner` acts: Python `None`,
an opaque non-`None` result (tagged by an integer), or a `MultiObject`
represented by its item list together with whether its `call_reducer`
is the `cleaner` function itself (its `call_reflex` is `None`
throughout, as in the source). -/
inductive CVal where
  | pynone
  | pyint (n : Int)
  | mobj (items : List CVal) (reducerIsCleaner : Bool)

/-- Python `i is None` on a `CVal`. -/
def CVal.isNone : CVal → Bool
  | .pynone => true
  | _ => false

/-- `cleaner` (`src/utils/multis.py`): `None` when the list consists of
`None`s only, otherwise `MultiObject(x, call_reducer=cleaner)`. -/
def cleaner (x : List CVal) : CVal :=
  if x.all CVal.isNone then .pynone else .mobj x true

/-! ### Joined groups (`PlotDataSets`) -/

/-- A member of a `PlotDataSets.children` list as the untyped source
builds it: the constructor appends any non-`PlotDataSets` argument
as-is and splices in the children of a `PlotDataSets` argument, so a
child is a single wrapper or (a priori) another group. -/
inductive GroupItem where
  | single (d : PlotDataSet)
  | group (children : List GroupItem)

/-- Whether a group member is a single wrapper. -/
def GroupItem.isSingle : GroupItem → Bool
  | .single _ => true
  | .group _ => false

/-- The member count of a join operand: a single wrapper counts 1, a
group counts its children. -/
def GroupItem.memberCount : GroupItem → Nat
  | .single _ => 1
  | .group cs => cs.length

/-- The invariant maintained by the constructor: a group's direct
children are all single wrappers. -/
def GroupItem.flat : GroupItem → Bool
  | .single _ => true
  | .group cs => cs.all GroupItem.isSingle

/-- The loop of `PlotDataSets.__init__`: extend with a group argument's
children, append anything else. -/
def flattenArgs : List GroupItem → List GroupItem
  | [] => []
  | .group cs :: rest => cs ++ flattenArgs rest
  | x :: rest => x :: flattenArgs rest

/-- `PlotDataSets.__init__(*args)`: raise `ValueError` on zero
arguments, otherwise build the group of the one-level-flattened
argument list. -/
def mkPlotDataSets (args : List GroupItem) : Except String GroupItem :=
  if args.isEmpty then .error "number of data sets is 0"
  else .ok (.group (flattenArgs args))

/-- `join`: both `PlotDataSet.join(self, *others)` and the forwarded
group variant evaluate `PlotDataSets(self, *others)`. -/
def GroupItem.join (self : GroupItem) (others : List GroupItem) :
    Except String GroupItem :=
  mkPlotDataSets (self :: others)

/-! ### Transform chains -/

/-- Extract the result of a non-raising call (used only where the
operation provably succeeds). -/
def exceptD (dflt : α) : Except ε α → α
  | .ok a => a
  | .error _ => dflt

/-- One step of a transform chain: the unary transforms and the binary
arithmetic methods (direct and reversed) with an arbitrary operand. -/
inductive Transform where
  | tlog
  | texp
  | tdemean
  | tzscore
  | tcumsum
  | tneg
  | trolling (n : Int)
  | tadd (o : Operand)
  | tsub (o : Operand)
  | tmul (o : Operand)
  | tdiv (o : Operand)
  | tpow (o : Operand)
  | tradd (o : Operand)
  | trsub (o : Operand)
  | trmul (o : Operand)
  | trdiv (o : Operand)
  | trpow (o : Operand)

/-- Apply one transform.  A raising binary operation leaves the
receiver unchanged (the exception aborts the expression). -/
def applyTransform (M : NumpyModel) (t : Transform) (d : PlotDataSet) :
    PlotDataSet :=
  match t with
  | .tlog => d.log M
  | .texp => d.exp M
  | .tdemean => d.demean
  | .tzscore => d.zscore M
  | .tcumsum => d.cumsum
  | .tneg => d.neg
  | .trolling n => d.rolling M n
  | .tadd o => exceptD d (d.add o)
  | .tsub o => exceptD d (d.sub o)
  | .tmul o => exceptD d (d.mul o)
  | .tdiv o => exceptD d (d.div o)
  | .tpow o => exceptD d (d.pow o)
  | .tradd o => exceptD d (d.radd o)
  | .trsub o => exceptD d (d.rsub o)
  | .trmul o => exceptD d (d.rmul o)
  | .trdiv o => exceptD d (d.rdiv o)
  | .trpow o => exceptD d (d.rpow o)

/-- Apply a chain of transforms left to right. -/
def applyChain (M : NumpyModel) : List Transform → PlotDataSet → PlotDataSet
  | [], d => d
  | t :: ts, d => applyChain M ts (applyTransform M t d)

/-! ### Helper lemmas about the string machinery -/

/-- A decimal digit character is not `{`. -/
theorem digitChar_ne_lbrace : ∀ n : Nat, Nat.digitChar n ≠ lbrace
  | 0 => by decide
  | 1 => by decide
  | 2 => by decide
  | 3 => by decide
  | 4 => by decide
  | 5 => by decide
  | 6 => by decide
  | 7 => by decide
  | 8 => by decide
  | 9 => by decide
  | 10 => by decide
  | 11 => by decide
  | 12 => by decide
  | 13 => by decide
  | 14 => by decide
  | 15 => by decide
  | n + 16 => by
    show ('*' : Char) ≠ lbrace
    decide

/-- The decimal digit expansion contains no `{`. -/
theorem toDigitsCore_nobrace (b : Nat) :
    ∀ (fuel n : Nat) (acc : List Char), lbrace ∉ acc →
      lbrace ∉ Nat.toDigitsCore b fuel n acc
  | 0, n, acc, h => by rw [Nat.toDigitsCore]; exact h
  | fuel + 1, n, acc, h => by
    rw [Nat.toDigitsCore]
    show lbrace ∉ (if n / b = 0 then Nat.digitChar (n % b) :: acc
      else Nat.toDigitsCore b fuel (n / b) (Nat.digitChar (n % b) :: acc))
    have hcons : lbrace ∉ Nat.digitChar (n % b) :: acc := by
      intro hm
      rcases List.mem_cons.mp hm with he | hm2
      · exact digitChar_ne_lbrace _ he.symm
      · exact h hm2
    split
    · exact hcons
    · exact toDigitsCore_nobrace b fuel _ _ hcons

/-- `str(k)` for an integer `k` contains no `{`, hence passes through
the placeholder scanner untouched. -/
theorem intStr_nobrace (k : Int) : lbrace ∉ (intStr k).data := by
  unfold intStr
  by_cases h : k < 0
  · rw [if_pos h]
    intro hm
    rcases List.mem_cons.mp hm with he | hm2
    · exact absurd he.symm (by decide)
    · exact toDigitsCore_nobrace 10 _ _ _ (by simp) hm2
  · rw [if_neg h]
    exact toDigitsCore_nobrace 10 _ _ _ (by simp)

/-- The placeholder scanner is the identity on brace-free text. -/
theorem substAux_nobrace (L : List Char) :
    ∀ cs : List Char, lbrace ∉ cs → substAux L cs = cs
  | [], _ => rfl
  | [_], _ => rfl
  | [_, _], _ => rfl
  | c :: d :: e :: rest, h => by
    have hc : ¬(c = lbrace ∧ d = '0' ∧ e = rbrace) := by
      intro hand
      exact h (by rw [← hand.1]; exact List.mem_cons_self c _)
    show (if c = lbrace ∧ d = '0' ∧ e = rbrace then L ++ substAux L rest
          else c :: substAux L (d :: e :: rest)) = c :: d :: e :: rest
    rw [if_neg hc, substAux_nobrace L (d :: e :: rest)
      (fun hm => h (List.mem_cons_of_mem c hm))]

/-- `__remove_brackets` on a string of the shape `"(" ++ t ++ ")"`
(stated through character data) yields `t`. -/
theorem rb_via_data (s t : String) (h : s.data = '(' :: (t.data ++ [')'])) :
    removeBrackets s = t := by
  unfold removeBrackets
  rw [h]
  rw [if_pos ⟨rfl, by rw [← List.cons_append, List.getLast?_concat]⟩]
  show String.mk (t.data ++ [')']).dropLast = t
  rw [List.dropLast_concat]

/-- A trivial instantiation of the external numeric black boxes, used
only to evaluate concrete counterexamples (no counterexample depends on
numeric values). -/
def trivialNumpy : NumpyModel :=
  { log := id, exp := id, nanstd := fun _ => 0, rollingMean := fun _ x => x }

/-- The `ValueError` message raised by `__binary_operation` for an
unsupported operand of type `t`. -/
def unsupportedMsg (t : String) : String :=
  "binary operation between PlotDataSet and " ++ t ++
    " is not supoorted, try float, int, or PlotDataSet"

/-! ### Claim C1 -/

/-- C1: for fresh wrappers labelled `a`, `b`, `c` (any data arrays),
`(a+b)*c` renders as `"(a+b)*c"`, `a+b+c` as `"a+b+c"`, `a-b-c` as
`"a-b-c"`, `a/(b/c)` as `"a/(b/c)"`, and `(a/b)/c` as `"a/b/c"`, so the
two division associations render differently. -/
theorem claim_C1_parenthesization (da db dc : NDArray) :
    (((mkPlotDataSet da (some "a")).add
        (.ds (mkPlotDataSet db (some "b")))).bind
        (fun x => x.mul (.ds (mkPlotDataSet dc (some "c"))))).map
        (fun d => d.formatted_label 0) = .ok "(a+b)*c" ∧
    (((mkPlotDataSet da (some "a")).add
        (.ds (mkPlotDataSet db (some "b")))).bind
        (fun x => x.add (.ds (mkPlotDataSet dc (some "c"))))).map
        (fun d => d.formatted_label 0) = .ok "a+b+c" ∧
    (((mkPlotDataSet da (some "a")).sub
        (.ds (mkPlotDataSet db (some "b")))).bind
        (fun x => x.sub (.ds (mkPlotDataSet dc (some "c"))))).map
        (fun d => d.formatted_label 0) = .ok "a-b-c" ∧
    (((mkPlotDataSet db (some "b")).div
        (.ds (mkPlotDataSet dc (some "c")))).bind
        (fun bc => (mkPlotDataSet da (some "a")).div (.ds bc))).map
        (fun d => d.formatted_label 0) = .ok "a/(b/c)" ∧
    (((mkPlotDataSet da (some "a")).div
        (.ds (mkPlotDataSet db (some "b")))).bind
        (fun x => x.div (.ds (mkPlotDataSet dc (some "c"))))).map
        (fun d => d.formatted_label 0) = .ok "a/b/c" :=
  ⟨rfl, rfl, rfl, rfl, rfl⟩

/-! ### Claim C3 -/

/-- C3 counterexample: the wrapper `-d` (for fresh `d` labelled `"a"`)
has label `"a"`, yet `-(-d)` renders as the double-negative text
`"-(-a)"`, not as a single negation `"-a"` as the claim states. -/
theorem claim_C3_counterexample :
    ((mkPlotDataSet [] (some "a")).neg.neg).formatted_label 0 = "-(-a)" ∧
    ((mkPlotDataSet [] (some "a")).neg.neg).label = "a" ∧
    ("-(-a)" : String) ≠ "-a" :=
  ⟨rfl, rfl, by decide⟩

/-- C3 amended: for a freshly created wrapper `d` with label `L`, `-d`
renders as `"-" ++ L` with no parentheses; but `-(-d)` renders as
`"-(-" ++ L ++ ")"` — the unary-minus priority 40 exceeds the
bracket-stripping threshold 28 of `__neg__`, so the inner negation
keeps its parentheses and the text is double-negative. -/
theorem claim_C3_amended (dat : NDArray) (L : String) :
    (mkPlotDataSet dat (some L)).neg.formatted_label 0 = "-" ++ L ∧
    (mkPlotDataSet dat (some L)).neg.neg.formatted_label 0
      = "-(-" ++ L ++ ")" := by
  constructor
  · refine rb_via_data _ _ ?_
    show (pyFormat "(-{0})" L).data = _
    have hL : (pyFormat "(-{0})" L).data = '(' :: '-' :: (L.data ++ [')']) :=
      rfl
    rw [hL]
    simp [String.data_append]
  · refine rb_via_data _ _ ?_
    show (pyFormat "(-(-{0}))" L).data = _
    have hL : (pyFormat "(-(-{0}))" L).data
        = '(' :: '-' :: '(' :: '-' :: (L.data ++ [')', ')']) := rfl
    rw [hL]
    simp [String.data_append]

/-! ### Claim C5 -/

/-- C5 counterexample: the reversed subtraction `__rsub__` applied to a
fresh wrapper with a list-like operand (neither a number nor a
`PlotDataSet`) does not signal the unsupported-operand error: it
succeeds and bakes `str(operand)` into the rendered formula. -/
theorem claim_C5_counterexample :
    ((mkPlotDataSet [1] (some "x1")).rsub
        (.obj "[1, 2]" "<class list>")).toOption.isSome = true ∧
    ((mkPlotDataSet [1] (some "x1")).rsub
        (.obj "[1, 2]" "<class list>")).toOption.map
        (fun d => d.formatted_label 0) = some "[1, 2]-x1" :=
  ⟨rfl, rfl⟩

/-- C5 amended: the five direct binary operations reject a non-number,
non-wrapper operand with the unsupported-operand `ValueError` before
any wrapper is constructed (the receiver is untouched — in this
functional embedding no state changes on error); the five reversed
forms, however, perform no validation and return a new wrapper built
from `str(operand)`. -/
theorem claim_C5_amended (d : PlotDataSet) (s t : String) :
    d.add (.obj s t) = .error (unsupportedMsg t) ∧
    d.sub (.obj s t) = .error (unsupportedMsg t) ∧
    d.mul (.obj s t) = .error (unsupportedMsg t) ∧
    d.div (.obj s t) = .error (unsupportedMsg t) ∧
    d.pow (.obj s t) = .error (unsupportedMsg t) ∧
    (d.radd (.obj s t)).toOption.isSome = true ∧
    (d.rsub (.obj s t)).toOption.isSome = true ∧
    (d.rmul (.obj s t)).toOption.isSome = true ∧
    (d.rdiv (.obj s t)).toOption.isSome = true ∧
    (d.rpow (.obj s t)).toOption.isSome = true :=
  ⟨rfl, rfl, rfl, rfl, rfl, rfl, rfl, rfl, rfl, rfl⟩

/-! ### Claim C6 -/

/-- C6: `cleaner(xs)` is the absence-value `None` exactly when every
element of `xs` is `None`; otherwise it is a `MultiObject` holding
exactly the elements of `xs` in order (absence-values included) with
`cleaner` installed as its call reducer. -/
theorem claim_C6_cleaner (xs : List CVal) :
    (cleaner xs = CVal.pynone ↔ ∀ v ∈ xs, v = CVal.pynone) ∧
    ((∃ v ∈ xs, v ≠ CVal.pynone) → cleaner xs = CVal.mobj xs true) := by
  have hall : xs.all CVal.isNone = true ↔ ∀ v ∈ xs, v = CVal.pynone := by
    rw [List.all_eq_true]
    constructor
    · intro h v hv
      have hv2 := h v hv
      cases v <;> simp [CVal.isNone] at hv2 ⊢
    · intro h v hv
      rw [h v hv]; rfl
  constructor
  · unfold cleaner
    by_cases h : xs.all CVal.isNone
    · rw [if_pos h]
      exact ⟨fun _ => hall.mp h, fun _ => rfl⟩
    · rw [if_neg h]
      constructor
      · intro hcon
        exact absurd hcon (by simp)
      · intro hv
        exact absurd (hall.mpr hv) h
  · rintro ⟨v, hv, hne⟩
    unfold cleaner
    rw [if_neg]
    intro h
    exact hne ((hall.mp h) v hv)

/-- C6 witness: a mixed list collapses to a proxy carrying all elements
with the cleaner reducer re-installed. -/
theorem claim_C6_cleaner_witness :
    cleaner [CVal.pynone, CVal.pyint 3]
      = CVal.mobj [CVal.pynone, CVal.pyint 3] true :=
  (claim_C6_cleaner _).2 ⟨CVal.pyint 3, by simp, fun h => CVal.noConfusion h⟩

/-! ### Claim C2 -/

/-- The reflex-injection step of `__call__` (`clean_kwargs[k] = r` when
the reflex key is truthy and `i > 0`), rewritten without the Python
truthiness test once the key is known to be nonempty. -/
theorem inj_eq_call {α : Type} (k : String) (hk : k ≠ "") (i0 : Nat)
    (prev : Option α) (kw : List (String × α)) :
    (match (some k : Option String), prev with
      | some kk, some r => if kk ≠ "" ∧ 0 < i0 then dictSet kk r kw else kw
      | _, _ => kw)
    = (match prev with
      | some r => if 0 < i0 then dictSet k r kw else kw
      | none => kw) := by
  cases prev with
  | none => rfl
  | some r => simp [hk]

/-- One unfolding step of the `__call__` loop when both argument
cleanings succeed. -/
theorem callAux_cons_eq {α : Type} (app : α → List α → List (String × α) → α)
    (k : String) (args : List (MArg α)) (kwargs : List (String × MArg α))
    (i0 : Nat) (prev : Option α) (x : α) (rest : List α)
    (cargs : List α) (ckw0 inj : List (String × α))
    (hA0 : args.mapM (cleanArg i0) = some cargs)
    (hK0 : kwargs.mapM (cleanKw i0) = some ckw0)
    (hinj : (match (some k : Option String), prev with
        | some kk, some r =>
          if kk ≠ "" ∧ 0 < i0 then dictSet kk r ckw0 else ckw0
        | _, _ => ckw0) = inj) :
    callAux app (some k) args kwargs i0 prev (x :: rest)
      = match callAux app (some k) args kwargs (i0 + 1)
          (some (app x cargs inj)) rest with
        | some rs => some (app x cargs inj :: rs)
        | none => none := by
  cases prev with
  | none =>
    have hinj2 : ckw0 = inj := hinj
    subst hinj2
    show (match args.mapM (cleanArg i0), kwargs.mapM (cleanKw i0) with
      | some cargs2, some ckw2 =>
        match callAux app (some k) args kwargs (i0 + 1)
            (some (app x cargs2 ckw2)) rest with
        | some rs => some (app x cargs2 ckw2 :: rs)
        | none => none
      | _, _ => none) = _
    rw [hA0, hK0]
  | some r =>
    have hinj2 : (if k ≠ "" ∧ 0 < i0 then dictSet k r ckw0 else ckw0) = inj :=
      hinj
    subst hinj2
    show (match args.mapM (cleanArg i0), kwargs.mapM (cleanKw i0) with
      | some cargs2, some ckw2 =>
        match callAux app (some k) args kwargs (i0 + 1)
            (some (app x cargs2
              (if k ≠ "" ∧ 0 < i0 then dictSet k r ckw2 else ckw2))) rest with
        | some rs => some (app x cargs2
            (if k ≠ "" ∧ 0 < i0 then dictSet k r ckw2 else ckw2) :: rs)
        | none => none
      | _, _ => none) = _
    rw [hA0, hK0]

/-- The `__call__` loop, characterised element by element: the result
list is as long as the item list, its head is the head item applied to
the index-0 cleaned arguments (plus the incoming reflex value, if any),
and each later element is the corresponding item applied to its cleaned
arguments with the previous result injected under the reflex key.
`A i` / `K i` name the successfully cleaned positional and keyword
arguments for index `i`. -/
theorem callAux_spec {α : Type} (app : α → List α → List (String × α) → α)
    (k : String) (hk : k ≠ "") (args : List (MArg α))
    (kwargs : List (String × MArg α)) (A : Nat → List α)
    (K : Nat → List (String × α)) :
    ∀ (items : List α) (i0 : Nat) (prev : Option α)
      (inj : List (String × α)),
      (inj = match prev with
        | some r => if 0 < i0 then dictSet k r (K i0) else K i0
        | none => K i0) →
      (∀ i, i0 ≤ i → i < i0 + items.length →
        args.mapM (cleanArg i) = some (A i)) →
      (∀ i, i0 ≤ i → i < i0 + items.length →
        kwargs.mapM (cleanKw i) = some (K i)) →
      ∃ rs : List α,
        callAux app (some k) args kwargs i0 prev items = some rs ∧
        rs.length = items.length ∧
        rs[0]? = items[0]?.map (fun x => app x (A i0) inj) ∧
        (∀ (j : Nat) (r_prev : α), rs[j]? = some r_prev →
          rs[j + 1]? = items[j + 1]?.map (fun x =>
            app x (A (i0 + j + 1)) (dictSet k r_prev (K (i0 + j + 1))))) := by
  intro items
  induction items with
  | nil =>
    intro i0 prev inj hinj hA hK
    exact ⟨[], rfl, rfl, rfl, by intro j r h; simp at h⟩
  | cons x rest ih =>
    intro i0 prev inj hinj hA hK
    have hA0 : args.mapM (cleanArg i0) = some (A i0) :=
      hA i0 (Nat.le_refl i0) (by simp only [List.length_cons]; omega)
    have hK0 : kwargs.mapM (cleanKw i0) = some (K i0) :=
      hK i0 (Nat.le_refl i0) (by simp only [List.length_cons]; omega)
    have hcall := (inj_eq_call k hk i0 prev (K i0)).trans hinj.symm
    obtain ⟨rs', e1, e2, e3, e4⟩ := ih (i0 + 1)
      (some (app x (A i0) inj)) (dictSet k (app x (A i0) inj) (K (i0 + 1)))
      (if_pos (Nat.succ_pos i0)).symm
      (fun i hi1 hi2 => hA i (by omega)
        (by simp only [List.length_cons] at hi2 ⊢; omega))
      (fun i hi1 hi2 => hK i (by omega)
        (by simp only [List.length_cons] at hi2 ⊢; omega))
    refine ⟨app x (A i0) inj :: rs', ?_, ?_, by simp, ?_⟩
    · rw [callAux_cons_eq app k args kwargs i0 prev x rest (A i0) (K i0) inj
        hA0 hK0 hcall, e1]
    · rw [List.length_cons, List.length_cons, e2]
    · intro j r_prev hj
      cases j with
      | zero =>
        rw [List.getElem?_cons_zero] at hj
        have hr : app x (A i0) inj = r_prev := Option.some.inj hj
        rw [← hr]
        simp only [List.getElem?_cons_succ, Nat.add_zero]
        exact e3
      | succ j' =>
        rw [List.getElem?_cons_succ] at hj
        simp only [List.getElem?_cons_succ]
        have hidx : i0 + (j' + 1) + 1 = i0 + 1 + j' + 1 := by omega
        rw [hidx]
        exact e4 j' r_prev hj

/-- C2: invoking a `MultiObject` over items `x_0 .. x_{N-1}` with a
configured (nonempty) reflex key `k` calls the items in list order;
proxy-valued arguments are replaced, for item `i`'s call, by their
`i`-th element (`A`/`K` name the cleaned argument lists); item `i > 0`
receives the extra keyword `k` bound to item `i-1`'s result; with a
reducer `R` the invocation returns `R(results)`, and without one it
returns a new proxy over the results that keeps the reflex key and
drops the reducer. -/
theorem claim_C2_broadcast_call (α : Type)
    (app : α → List α → List (String × α) → α)
    (items : List α) (k : String) (red : List α → α)
    (args : List (MArg α)) (kwargs : List (String × MArg α))
    (A : Nat → List α) (K : Nat → List (String × α))
    (hk : k ≠ "")
    (hA : ∀ i, i < items.length → args.mapM (cleanArg i) = some (A i))
    (hK : ∀ i, i < items.length → kwargs.mapM (cleanKw i) = some (K i)) :
    ∃ rs : List α,
      callAux app (some k) args kwargs 0 none items = some rs ∧
      rs.length = items.length ∧
      rs[0]? = items[0]?.map (fun x => app x (A 0) (K 0)) ∧
      (∀ (j : Nat) (r_prev : α), rs[j]? = some r_prev →
        rs[j + 1]? = items[j + 1]?.map (fun x =>
          app x (A (j + 1)) (dictSet k r_prev (K (j + 1))))) ∧
      MultiObject.call app ⟨items, some red, some k⟩ args kwargs
        = some (.reduced (red rs)) ∧
      MultiObject.call app ⟨items, none, some k⟩ args kwargs
        = some (.proxy ⟨rs, none, some k⟩) := by
  obtain ⟨rs, h1, h2, h3, h4⟩ := callAux_spec app k hk args kwargs A K items
    0 none (K 0) rfl
    (fun i _ hi => hA i (by omega)) (fun i _ hi => hK i (by omega))
  refine ⟨rs, h1, h2, h3, ?_, ?_, ?_⟩
  · intro j r_prev hp
    have h5 := h4 j r_prev hp
    simpa [Nat.zero_add] using h5
  · simp [MultiObject.call, h1]
  · simp [MultiObject.call, h1]

/-- C2 witness: a two-item proxy with reflex key `"prev"`, one
proxy-valued positional argument and one plain keyword argument; the
loop succeeds and produces one result per item. -/
theorem claim_C2_broadcast_call_witness :
    ∃ rs : List Int,
      callAux (fun f cargs ckw => f + cargs.sum + (ckw.map (fun kv => kv.2)).sum)
        (some "prev") [.mobj ⟨[1, 2], none, none⟩] [("w", .plain 5)]
        0 none [10, 20] = some rs ∧ rs.length = 2 := by
  obtain ⟨rs, h1, h2, h3, h4, h5, h6⟩ :=
    claim_C2_broadcast_call Int
      (fun f cargs ckw => f + cargs.sum + (ckw.map (fun kv => kv.2)).sum)
      [10, 20] "prev" (fun l => l.sum)
      [.mobj ⟨[1, 2], none, none⟩] [("w", .plain 5)]
      (fun i => [if i = 0 then 1 else 2]) (fun _ => [("w", 5)])
      (by decide)
      (fun i hi => by
        have h2 : i < 2 := by simpa using hi
        match i, h2 with
        | 0, _ => rfl
        | 1, _ => rfl
        | (i + 2), h2 => exact absurd h2 (by omega))
      (fun i hi => by
        have h2 : i < 2 := by simpa using hi
        match i, h2 with
        | 0, _ => rfl
        | 1, _ => rfl
        | (i + 2), h2 => exact absurd h2 (by omega))
  exact ⟨rs, h1, h2⟩

/-! ### Claim C4 -/

/-- The flattened argument list has as many members as the operands
have in total. -/
theorem flattenArgs_length (args : List GroupItem) :
    (flattenArgs args).length = (args.map GroupItem.memberCount).sum := by
  induction args with
  | nil => rfl
  | cons a rest ih =>
    cases a with
    | single d =>
      simp [flattenArgs, GroupItem.memberCount, ih]
      omega
    | group cs => simp [flattenArgs, GroupItem.memberCount, ih]

/-- Flattening arguments whose groups are flat yields single wrappers
only. -/
theorem flattenArgs_flat (args : List GroupItem)
    (h : ∀ a ∈ args, a.flat = true) :
    ∀ c ∈ flattenArgs args, c.isSingle = true := by
  induction args with
  | nil => intro c hc; simp [flattenArgs] at hc
  | cons a rest ih =>
    intro c hc
    cases a with
    | single d =>
      rw [show flattenArgs (.single d :: rest) = .single d :: flattenArgs rest
        from rfl] at hc
      rcases List.mem_cons.mp hc with rfl | hc2
      · rfl
      · exact ih (fun x hx => h x (List.mem_cons_of_mem _ hx)) c hc2
    | group cs =>
      rw [show flattenArgs (.group cs :: rest) = cs ++ flattenArgs rest
        from rfl] at hc
      rcases List.mem_append.mp hc with hc1 | hc2
      · have hflat := h _ (List.mem_cons_self (GroupItem.group cs) rest)
        exact List.all_eq_true.mp hflat c hc1
      · exact ih (fun x hx => h x (List.mem_cons_of_mem _ hx)) c hc2

/-- C4: constructing a group from zero datasets raises the empty-group
error; joining a wrapper or flat group with further wrappers or flat
groups yields a group whose children are all single wrappers and whose
child count is the sum of the operands' member counts. -/
theorem claim_C4_join_flattening :
    mkPlotDataSets [] = .error "number of data sets is 0" ∧
    ∀ (a : GroupItem) (others : List GroupItem),
      a.flat = true → (∀ o ∈ others, o.flat = true) →
      ∃ cs : List GroupItem,
        a.join others = .ok (.group cs) ∧
        (∀ c ∈ cs, c.isSingle = true) ∧
        cs.length = ((a :: others).map GroupItem.memberCount).sum := by
  refine ⟨rfl, ?_⟩
  intro a others ha ho
  refine ⟨flattenArgs (a :: others), rfl, ?_, flattenArgs_length _⟩
  refine flattenArgs_flat _ ?_
  intro x hx
  rcases List.mem_cons.mp hx with rfl | hx2
  · exact ha
  · exact ho x hx2

/-- C4 witness: joining one single wrapper with a two-member group
yields a flat group of three single wrappers. -/
theorem claim_C4_join_flattening_witness :
    ∃ cs : List GroupItem,
      GroupItem.join (.single (mkPlotDataSet [] none))
          [.group [.single (mkPlotDataSet [] (some "a")),
                   .single (mkPlotDataSet [] (some "b"))]]
        = .ok (.group cs) ∧
      (∀ c ∈ cs, c.isSingle = true) ∧ cs.length = 3 := by
  obtain ⟨cs, h1, h2, h3⟩ :=
    claim_C4_join_flattening.2 (.single (mkPlotDataSet [] none))
      [.group [.single (mkPlotDataSet [] (some "a")),
               .single (mkPlotDataSet [] (some "b"))]]
      rfl (by
        intro o ho
        rcases List.mem_cons.mp ho with rfl | hmem
        · rfl
        · simp at hmem)
  exact ⟨cs, h1, h2, by rw [h3]; rfl⟩

/-! ### Claim C8 -/

/-- Every transform carries the receiver's `original_data` forward. -/
theorem applyTransform_original (M : NumpyModel) (t : Transform)
    (d : PlotDataSet) :
    (applyTransform M t d).original_data = d.original_data := by
  cases t <;> first | rfl | (rename_i o; cases o <;> rfl)

/-- Every transform carries the receiver's `label` forward. -/
theorem applyTransform_label (M : NumpyModel) (t : Transform)
    (d : PlotDataSet) :
    (applyTransform M t d).label = d.label := by
  cases t <;> first | rfl | (rename_i o; cases o <;> rfl)

/-- C8: every transform returns a wrapper carrying forward the
receiver's `original_data` and `label` (the receiver itself is a value
in this embedding, hence untouched by construction), while the two
reset operations update the same instance: `opclear` restores the bare
template and the original data, `opclear_records_only` restores the
bare template and rebases `original_data` on the current data. -/
theorem claim_C8_nondestructive (M : NumpyModel) (t : Transform)
    (d : PlotDataSet) :
    ((applyTransform M t d).original_data = d.original_data ∧
     (applyTransform M t d).label = d.label) ∧
    (d.opclear.fmt_ = "{0}" ∧ d.opclear.data = d.original_data ∧
     d.opclear.original_data = d.original_data ∧ d.opclear.label = d.label) ∧
    (d.opclear_records_only.fmt_ = "{0}" ∧
     d.opclear_records_only.data = d.data ∧
     d.opclear_records_only.original_data = d.data ∧
     d.opclear_records_only.label = d.label) :=
  ⟨⟨applyTransform_original M t d, applyTransform_label M t d⟩,
   ⟨rfl, rfl, rfl, rfl⟩, ⟨rfl, rfl, rfl, rfl⟩⟩

/-! ### Claim C7 -/

/-- The template and priority produced by a transform depend only on
the receiver's template and priority, never on its label or data. -/
theorem applyTransform_congr (M : NumpyModel) (t : Transform)
    (d e : PlotDataSet) (h1 : d.fmt_ = e.fmt_)
    (h2 : d.last_op_prior = e.last_op_prior) :
    (applyTransform M t d).fmt_ = (applyTransform M t e).fmt_ ∧
    (applyTransform M t d).last_op_prior
      = (applyTransform M t e).last_op_prior := by
  cases t <;> (try (rename_i o; cases o)) <;>
    simp [applyTransform, PlotDataSet.log, PlotDataSet.exp, PlotDataSet.demean,
      PlotDataSet.zscore, PlotDataSet.cumsum, PlotDataSet.neg,
      PlotDataSet.rolling, PlotDataSet.add, PlotDataSet.sub, PlotDataSet.mul,
      PlotDataSet.div, PlotDataSet.pow, PlotDataSet.radd, PlotDataSet.rsub,
      PlotDataSet.rmul, PlotDataSet.rdiv, PlotDataSet.rpow,
      PlotDataSet.binaryOperation, PlotDataSet.create, PlotDataSet.fmt,
      PlotDataSet.autoRemoveBrackets, exceptD, h1, h2]

/-- A transform chain never changes the receiver's label. -/
theorem applyChain_label (M : NumpyModel) (ops : List Transform) :
    ∀ d : PlotDataSet, (applyChain M ops d).label = d.label := by
  induction ops with
  | nil => intro d; rfl
  | cons t ts ih =>
    intro d
    rw [show applyChain M (t :: ts) d = applyChain M ts (applyTransform M t d)
      from rfl]
    rw [ih (applyTransform M t d), applyTransform_label]

/-- The template and priority of a transform chain depend only on the
initial template and priority. -/
theorem applyChain_congr (M : NumpyModel) (ops : List Transform) :
    ∀ d e : PlotDataSet, d.fmt_ = e.fmt_ → d.last_op_prior = e.last_op_prior →
      (applyChain M ops d).fmt_ = (applyChain M ops e).fmt_ ∧
      (applyChain M ops d).last_op_prior
        = (applyChain M ops e).last_op_prior := by
  induction ops with
  | nil => intro d e h1 h2; exact ⟨h1, h2⟩
  | cons t ts ih =>
    intro d e h1 h2
    obtain ⟨g1, g2⟩ := applyTransform_congr M t d e h1 h2
    exact ih _ _ g1 g2

/-- C7: for every transform chain the template keeps its placeholder
(it never depends on the label), and relabelling after building the
formula renders exactly as if the wrapper had carried the new label all
along: the rendered text uses the label live at render time. -/
theorem claim_C7_lazy_label (M : NumpyModel) (ops : List Transform)
    (dat : NDArray) (L L' : String) (p : Nat) :
    ((applyChain M ops (mkPlotDataSet dat (some L))).set_label
        (some L') []).formatted_label p
      = (applyChain M ops (mkPlotDataSet dat (some L'))).formatted_label p ∧
    (applyChain M ops (mkPlotDataSet dat (some L))).fmt_
      = (applyChain M ops (mkPlotDataSet dat (some L'))).fmt_ := by
  obtain ⟨h1, h2⟩ := applyChain_congr M ops (mkPlotDataSet dat (some L))
    (mkPlotDataSet dat (some L')) rfl rfl
  refine ⟨?_, h1⟩
  have hl : (applyChain M ops (mkPlotDataSet dat (some L'))).label = L' :=
    applyChain_label M ops (mkPlotDataSet dat (some L'))
  simp [PlotDataSet.formatted_label, PlotDataSet.set_label, h1, h2, hl]

/-! ### Claim C9 -/

/-- C9 counterexample to the universal quantification: for the derived
wrapper `a + b` (label `"a"`), `zscore` renders with the bracket-
stripped sub-formula, `"a+b-mean(a+b))/std(a+b"`, not with the label
`"a"` as the claim's string `"L-mean(L))/std(L"` states. -/
theorem claim_C9_counterexample :
    (((mkPlotDataSet [] (some "a")).add
        (.ds (mkPlotDataSet [] (some "b")))).map
        (fun ab => (ab.zscore trivialNumpy).formatted_label 0))
      = .ok "a+b-mean(a+b))/std(a+b" ∧
    (((mkPlotDataSet [] (some "a")).add
        (.ds (mkPlotDataSet [] (some "b")))).map
        (fun ab => ab.label)) = .ok "a" ∧
    ("a+b-mean(a+b))/std(a+b" : String) ≠ "a-mean(a))/std(a" :=
  ⟨rfl, rfl, by decide⟩

/-- C9 amended: for every freshly created wrapper (template `"{0}"`)
with label `L`, the public-formula view of `zscore` strips the first
and last characters without checking that they match, producing the
unbalanced string `L ++ "-mean(" ++ L ++ "))/std(" ++ L`. -/
theorem claim_C9_amended (M : NumpyModel) (dat : NDArray) (L : String) :
    ((mkPlotDataSet dat (some L)).zscore M).formatted_label 0
      = L ++ "-mean(" ++ L ++ "))/std(" ++ L := by
  refine rb_via_data _ _ ?_
  calc _ = '(' :: (L.data ++ ('-' :: 'm' :: 'e' :: 'a' :: 'n' :: '(' ::
        (L.data ++ (')' :: ')' :: '/' :: 's' :: 't' :: 'd' :: '(' ::
          (L.data ++ [')']))))) := rfl
    _ = '(' :: ((L ++ "-mean(" ++ L ++ "))/std(" ++ L).data ++ [')']) := by
        simp [String.data_append]

/-! ### Claim C10 -/

/-- C10 counterexample to the universal quantification: for the derived
wrapper `a + b` (label `"a"`), `demean` followed by `* 2` renders with
the sub-formula, `"a+b-mean(a+b)*2"`, not with the label `"a"` as the
claim's string `"L-mean(L)*k"` states. -/
theorem claim_C10_counterexample :
    ((((mkPlotDataSet [] (some "a")).add
        (.ds (mkPlotDataSet [] (some "b")))).bind
        (fun ab => ab.demean.mul (.int 2))).map
        (fun d => d.formatted_label 0)) = .ok "a+b-mean(a+b)*2" ∧
    ("a+b-mean(a+b)*2" : String) ≠ "a-mean(a)*2" :=
  ⟨rfl, by decide⟩

/-- C10 amended: `demean` always records last-operation priority 0, and
for a freshly created wrapper with label `L` and any integer scalar
`k`, `(d.demean() * k).formatted_label()` is the parenthesis-free
`L ++ "-mean(" ++ L ++ ")*" ++ str(k)`. -/
theorem claim_C10_amended (dat : NDArray) (L : String) (k : Int) :
    (∀ d : PlotDataSet, d.demean.last_op_prior = 0) ∧
    ((mkPlotDataSet dat (some L)).demean.mul (.int k)).map
        (fun d => d.formatted_label 0)
      = .ok (L ++ "-mean(" ++ L ++ ")*" ++ intStr k) := by
  refine ⟨fun d => rfl, ?_⟩
  have htail : substAux L.data (')' :: '*' :: ((intStr k).data ++ [')']))
      = ')' :: '*' :: ((intStr k).data ++ [')']) := by
    refine substAux_nobrace _ _ ?_
    simp +decide [List.mem_cons, List.mem_append, intStr_nobrace]
  show Except.ok (PlotDataSet.formatted_label _ 0) = _
  refine congrArg Except.ok ?_
  refine rb_via_data _ _ ?_
  calc _ = '(' :: (L.data ++ ('-' :: 'm' :: 'e' :: 'a' :: 'n' :: '(' ::
        (L.data ++ substAux L.data
          (')' :: '*' :: ((intStr k).data ++ [')']))))) := rfl
    _ = '(' :: (L.data ++ ('-' :: 'm' :: 'e' :: 'a' :: 'n' :: '(' ::
        (L.data ++ (')' :: '*' :: ((intStr k).data ++ [')']))))) := by
        rw [htail]
    _ = '(' :: ((L ++ "-mean(" ++ L ++ ")*" ++ intStr k).data ++ [')']) := by
        simp [String.data_append]

end Dataplot
